import Mathlib

/-!
Verification of the `sagacious-cpp` repository: a thin HTTP wrapper
(`server.h` / `server.cpp`) over the Simple-Web-Server library, and a
generic data-access template (`model.h`) over a mongocxx client.

The C++ code is shallowly embedded: stateful objects become explicit
records, calls on the underlying library objects become traces recorded
in those records, and exceptions become `Except` results.
-/

namespace Sagacious

/-! ## HTTP wrapper (`server.h` / `server.cpp`) -/

/-- The `http::method` enum from `server.h`:
`enum method { GET = 0, POST, PUT, PATCH, DELETE }`. -/
inductive method
  | GET
  | POST
  | PUT
  | PATCH
  | DELETE
deriving DecidableEq, Repr

/-- `http::to_string` from `server.cpp`: a switch returning the name of the
method; the default branch (reached only by `GET`) asserts
`method::GET == method` and returns `"GET"`. -/
def to_string (m : method) : String :=
  match m with
  | .POST => "POST"
  | .PUT => "PUT"
  | .PATCH => "PATCH"
  | .DELETE => "DELETE"
  | _ => "GET"

/-- The condition checked by the `assert` in the default branch of
`http::to_string`: on the four explicit cases no assert runs (modelled as
`true`); in the default branch the assert demands `method::GET == method`. -/
def to_string_assert (m : method) : Bool :=
  match m with
  | .POST => true
  | .PUT => true
  | .PATCH => true
  | .DELETE => true
  | m => m == .GET

/-- A body passed to `response::send`: either a `std::string` or a
`std::istream` (modelled by an opaque stream identifier). -/
inductive Body
  | str (s : String)
  | stream (id : Nat)
deriving DecidableEq, Repr

/-- One call of `_r->write(code, body, headers)` on the underlying
`SimpleWeb` response object, recording the arguments passed. -/
structure Write where
  code : Nat
  body : Body
  headers : List (String × String)
deriving DecidableEq, Repr

/-- The `http::response` wrapper from `server.h`: a pointer `_r` to the
underlying response and a `CaseInsensitiveMultimap _headers`.  The multimap
is modelled as a list of pairs in insertion order; the calls forwarded to
the underlying object are recorded in `writes`. -/
structure response where
  _r : Nat
  _headers : List (String × String)
  writes : List Write
deriving DecidableEq, Repr

/-- The `http::response` constructor: stores the pointer and initialises
`_headers{}` empty. -/
def response.wrap (p : Nat) : response :=
  { _r := p, _headers := [], writes := [] }

/-- `response::send(StatusCode, std::string)`: emplaces a
`Content-Length` header whose value is `std::to_string(body.length())`,
then forwards `write(code, body, _headers)` to the underlying response. -/
def response.send (r : response) (code : Nat) (body : String) : response :=
  let hs := r._headers ++ [("Content-Length", toString body.length)]
  { r with _headers := hs, writes := r.writes ++ [⟨code, Body.str body, hs⟩] }

/-- `response::send(StatusCode, std::istream&)`: forwards
`write(code, body, _headers)` without touching the headers. -/
def response.sendStream (r : response) (code : Nat) (b : Nat) : response :=
  { r with writes := r.writes ++ [⟨code, Body.stream b, r._headers⟩] }

/-- `response::send_json(StatusCode, std::string)`: emplaces a
`Content-Type: application/json` header, then calls `send(code, body)`. -/
def response.send_json (r : response) (code : Nat) (body : String) : response :=
  response.send
    { r with _headers := r._headers ++ [("Content-Type", "application/json")] }
    code body

/-- `response::send_json(StatusCode, std::istream&)`: emplaces a
`Content-Type: application/json` header, then calls the istream `send`. -/
def response.send_jsonStream (r : response) (code : Nat) (b : Nat) : response :=
  response.sendStream
    { r with _headers := r._headers ++ [("Content-Type", "application/json")] }
    code b

/-- The `http::request` wrapper from `server.h`: holds the pointer to the
underlying request. -/
structure request where
  _r : Nat
deriving DecidableEq, Repr

/-- A routing-table key of the underlying server:
`_server.resource[pattern][methodString]`. -/
abbrev RouteKey := String × String

/-- The `sagacious::server` wrapper: the underlying `SimpleWeb` server is
modelled by its configured port, whether `start()` has been called, and its
`resource` routing table mapping `(pattern, method-string)` keys to
callbacks on raw (pointer) response and request arguments. -/
structure server where
  port : Int
  started : Bool
  resource : RouteKey → Option (Nat → Nat → response)

/-- `server::set_port(short port)`: `_server.config.port = port`. -/
def server.set_port (s : server) (p : Int) : server :=
  { s with port := p }

/-- A default-constructed underlying `SimpleWeb` server, before the
`sagacious::server` constructor body runs: not started, empty routing
table, and some library-default port (its value is irrelevant because the
constructor immediately overwrites it). -/
def server.underlying : server :=
  { port := 80, started := false, resource := fun _ => none }

/-- The `sagacious::server` default constructor: default-constructs the
underlying server, then calls `set_port(9080)`. -/
def server.mkDefault : server :=
  server.set_port server.underlying 9080

/-- `server::run()`: calls `_server.start()`. -/
def server.runNoArg (s : server) : server :=
  { s with started := true }

/-- `server::run(short port)`: calls `set_port(port)` then `run()`. -/
def server.runPort (s : server) (p : Int) : server :=
  server.runNoArg (server.set_port s p)

/-- `server::on(method, pattern, handler)`: stores at
`resource[pattern][to_string(method)]` a callback that wraps the raw
response and request pointers and invokes `handler` on the wrappers.  The
handler is modelled as returning the final state of the response wrapper. -/
def server.on (s : server) (m : method) (pattern : String)
    (handler : request → response → response) : server :=
  { s with resource := fun k =>
      if k = (pattern, to_string m)
      then some (fun respPtr reqPtr =>
        handler { _r := reqPtr } (response.wrap respPtr))
      else s.resource k }

/-! ## Data-access template (`model.h`) -/

/-- An ObjectId value, carried as its hexadecimal string. -/
abbrev Oid := String

/-- A character accepted by the per-character test of
`bson_oid_is_valid`: a decimal digit or a lowercase hex letter `a`-`f`
(uppercase is rejected, consistent with `bson_oid_parse_hex_char`). -/
def isHexChar (c : Char) : Bool :=
  c.isDigit || (Char.ofNat 97 ≤ c && c ≤ Char.ofNat 102)

/-- Validity of an ObjectId string, as checked by the `bsoncxx::oid`
constructor (via `bson_oid_is_valid`): exactly 24 lowercase hexadecimal
characters.  The constructor throws on any other string. -/
def validOid (s : String) : Bool :=
  s.length == 24 && s.toList.all isHexChar

/-- A `mongocxx::collection` handle, identified by its database and
collection names on the thread-local client. -/
structure Collection where
  db : String
  coll : String
deriving DecidableEq, Repr

/-- The lookup `client[db][coll]` on the thread-local `mongocxx::client`:
returns the collection handle, touching no database state. -/
def clientSub (db coll : String) : Collection :=
  { db := db, coll := coll }

/-- The private data of a `model<T>` object: its `_db` and `_collection`
name fields. -/
structure modelState where
  _db : String
  _collection : String
deriving DecidableEq, Repr

/-- `model<T>::get_collection()`: the one-line body
`return model<T>::client[_db][_collection];`. -/
def get_collection (m : modelState) : Collection :=
  clientSub m._db m._collection

/-- The protected `model<T>::collection()` accessor:
`return get_collection();`. -/
def collection (m : modelState) : Collection :=
  get_collection m

/-- A stored document: its `_id` and remaining fields. -/
structure Doc where
  _id : Oid
  fields : List (String × String)
deriving DecidableEq, Repr

/-- The database reachable through the client: contents of each
(database, collection) pair. -/
abbrev World := List ((String × String) × List Doc)

/-- The documents currently stored in a collection. -/
def collDocs (w : World) (c : Collection) : List Doc :=
  match w.find? (fun e => e.1 == (c.db, c.coll)) with
  | some e => e.2
  | none => []

/-- `collection.find_one({"_id": oid})`: the first stored document whose
`_id` equals the given oid, if any. -/
def find_one (w : World) (c : Collection) (oid : Oid) : Option Doc :=
  (collDocs w c).find? (fun d => d._id == oid)

/-- A database operation issued by the model layer. -/
inductive DbOp
  | findOne (c : Collection) (query : List (String × Oid))
deriving DecidableEq, Repr

/-- The observable outcome of running a `model<T>` member function:
the database operations issued, the lines printed to `std::cout`, the
database state afterwards, and the returned value (`Except` for a thrown
exception). -/
structure Outcome (α : Type) where
  ops : List DbOp
  output : List String
  world : World
  result : Except String α
deriving Repr

/-- `model<T>::save()`: an empty body.  Returns the object, the database
state, and the (empty) list of operations issued. -/
def save (m : modelState) (w : World) : modelState × World × List DbOp :=
  (m, w, [])

/-- `model<T>::remove()`: an empty body. -/
def remove (m : modelState) (w : World) : modelState × World × List DbOp :=
  (m, w, [])

/-- `model<T>::get(id)`.  `T` is abstracted by the value its default
constructor produces (`default`) and by the collection its virtual
`collection()` accessor resolves to (`objColl`).  The body
default-constructs `T obj{}`, constructs `bsoncxx::oid oid{id}` (which
throws unless `id` is a valid ObjectId string), builds the document
`{"_id": oid}`, issues `collection.find_one` on it, prints `"ok"` or
`"nope"` depending on whether a document was found, and returns `obj`. -/
def get {α : Type} (default : α) (objColl : α → Collection)
    (w : World) (id : String) : Outcome α :=
  let obj := default
  if validOid id then
    let oid : Oid := id
    let coll := objColl obj
    let document := [("_id", oid)]
    let result := find_one w coll oid
    { ops := [DbOp.findOne coll document]
      output := [match result with | some _ => "ok" | none => "nope"]
      world := w
      result := Except.ok obj }
  else
    { ops := [], output := [], world := w
      result := Except.error "bsoncxx::exception: invalid ObjectId string" }

/-! ## Theorems -/

/-- C5: `http::to_string` maps each of the five `http::method` enum values
to the string of its name, and for every value of the enum the assert in
the default branch is never violated. -/
theorem to_string_maps_methods_to_names :
    to_string .GET = "GET" ∧ to_string .POST = "POST" ∧ to_string .PUT = "PUT"
      ∧ to_string .PATCH = "PATCH" ∧ to_string .DELETE = "DELETE"
      ∧ ∀ m : method, to_string_assert m = true := by
  refine ⟨rfl, rfl, rfl, rfl, rfl, ?_⟩
  intro m
  cases m <;> rfl

/-- C4: `response::send(code, body)` on a string body adds exactly one
`Content-Length` header holding the decimal representation of the body
length and forwards exactly one write of `(code, body, headers)` to the
underlying response; `send_json` first adds a
`Content-Type: application/json` entry and then behaves as `send`; the
istream overload forwards the write without adding a `Content-Length`. -/
theorem response_send_spec :
    ∀ (r : response) (code : Nat) (body : String) (sid : Nat),
      (response.send r code body)._headers
          = r._headers ++ [("Content-Length", toString body.length)]
      ∧ (response.send r code body).writes
          = r.writes ++ [⟨code, Body.str body,
              r._headers ++ [("Content-Length", toString body.length)]⟩]
      ∧ (response.send r code body)._r = r._r
      ∧ response.send_json r code body
          = response.send
              { r with _headers := r._headers ++ [("Content-Type", "application/json")] }
              code body
      ∧ (response.sendStream r code sid).writes
          = r.writes ++ [⟨code, Body.stream sid, r._headers⟩]
      ∧ (response.sendStream r code sid)._headers = r._headers := by
  intro r code body sid
  exact ⟨rfl, rfl, rfl, rfl, rfl, rfl⟩

/-- C3: `server::on(m, p, h)` installs at routing key
`(p, to_string(m))` a callback invoking `h` unchanged on wrappers of the
underlying request and response objects, leaves every other routing-table
entry as it was, and changes nothing else of the server. -/
theorem server_on_spec :
    ∀ (s : server) (m : method) (p : String)
      (h : request → response → response) (k : RouteKey),
      (server.on s m p h).resource k
          = (if k = (p, to_string m)
             then some (fun respPtr reqPtr =>
               h { _r := reqPtr } (response.wrap respPtr))
             else s.resource k)
      ∧ (server.on s m p h).port = s.port
      ∧ (server.on s m p h).started = s.started := by
  intro s m p h k
  exact ⟨rfl, rfl, rfl⟩

/-- C7: a default-constructed `server` has the underlying server's port
set to 9080, and `run(port)` is `set_port(port)` followed by `run()`, so
the port passed to `run` is in effect when the server starts. -/
theorem server_default_port_and_run :
    server.mkDefault.port = 9080
      ∧ ∀ (s : server) (p : Int),
          server.runPort s p = server.runNoArg (server.set_port s p)
          ∧ (server.runPort s p).port = p
          ∧ (server.runPort s p).started = true := by
  exact ⟨rfl, fun s p => ⟨rfl, rfl, rfl⟩⟩

/-- C8: the header multimap of a `response` only grows: `send` and
`send_json` extend it, the istream `send` leaves it unchanged, no
operation removes an entry; two string `send` calls leave two
`Content-Length` entries, and a `send` after a `send_json` still carries
the earlier `Content-Type` entry. -/
theorem response_headers_only_grow :
    ∀ (r : response) (c1 c2 : Nat) (b1 b2 : String) (sid : Nat),
      r._headers <+: (response.send r c1 b1)._headers
      ∧ r._headers <+: (response.send_json r c1 b1)._headers
      ∧ (response.sendStream r c1 sid)._headers = r._headers
      ∧ (response.send_jsonStream r c1 sid)._headers
          = r._headers ++ [("Content-Type", "application/json")]
      ∧ ((response.send (response.send r c1 b1) c2 b2)._headers.countP
            (fun e => e.1 == "Content-Length"))
          = (r._headers.countP (fun e => e.1 == "Content-Length")) + 2
      ∧ ("Content-Type", "application/json")
          ∈ (response.send (response.send_json r c1 b1) c2 b2)._headers := by
  intro r c1 c2 b1 b2 sid
  refine ⟨List.prefix_append _ _, ?_, rfl, rfl, ?_, ?_⟩
  · show r._headers <+: (r._headers ++ _) ++ _
    exact (List.prefix_append _ _).trans (List.prefix_append _ _)
  · simp [response.send, List.countP_append, List.countP_cons]
  · simp [response.send, response.send_json]

/-- C6: `model<T>::get_collection()` is exactly the one-step lookup
`client[_db][_collection]` on the thread-local client, and the protected
`collection()` accessor returns the same value. -/
theorem get_collection_passthrough :
    ∀ (db coll : String),
      get_collection { _db := db, _collection := coll } = clientSub db coll
      ∧ collection { _db := db, _collection := coll }
          = get_collection { _db := db, _collection := coll } := by
  intro db coll
  exact ⟨rfl, rfl⟩

/-- C2: `model<T>::save()` and `model<T>::remove()` are no-ops: they
issue no database operation and leave the object's fields and the
database state unchanged. -/
theorem save_remove_noop :
    ∀ (m : modelState) (w : World),
      save m w = (m, w, []) ∧ remove m w = (m, w, []) := by
  intro m w
  exact ⟨rfl, rfl⟩

/-- C1 (counterexample): the claim quantifies over every id string, but at
the id `""` the `bsoncxx::oid` constructor throws, so `get` issues no
`find_one` at all — its operation list is empty, not the claimed single
lookup. -/
theorem get_claim_fails_on_invalid_id :
    ¬ ((get 0 (fun _ => clientSub "db" "coll") [] "").ops
          = [DbOp.findOne (clientSub "db" "coll") [("_id", "")]]
        ∧ (get 0 (fun _ => clientSub "db" "coll") [] "").result
          = Except.ok 0) := by
  intro h
  exact absurd h.1 (by decide)

/-- C1 (amended): for every id string that is a well-formed ObjectId
string (24 lowercase hexadecimal characters), `model<T>::get(id)` issues
a single `find_one` lookup for the
document `{"_id": oid(id)}` on the collection of a default-constructed
`T`, discards the lookup result after printing `"ok"` or `"nope"`, leaves
the database untouched, and returns a default-constructed `T` regardless
of whether a document was found. -/
theorem get_spec_on_valid_id :
    ∀ {α : Type} (dflt : α) (objColl : α → Collection)
      (w : World) (id : String),
      validOid id = true →
        (get dflt objColl w id).ops
            = [DbOp.findOne (objColl dflt) [("_id", id)]]
        ∧ (get dflt objColl w id).result = Except.ok dflt
        ∧ (get dflt objColl w id).output
            = [if (find_one w (objColl dflt) id).isSome then "ok" else "nope"]
        ∧ (get dflt objColl w id).world = w := by
  intro α dflt objColl w id hvalid
  refine ⟨?_, ?_, ?_, ?_⟩ <;> simp only [get, hvalid, if_true]
  cases find_one w (objColl dflt) id <;> rfl

/-- C1 (witness): the amended theorem applied at a concrete well-formed
ObjectId string. -/
theorem get_spec_on_valid_id_witness :
    validOid "0123456789abcdef01234567" = true
    ∧ (get 0 (fun _ => clientSub "db" "coll") []
          "0123456789abcdef01234567").result = Except.ok 0 :=
  ⟨by decide,
   (get_spec_on_valid_id 0 (fun _ => clientSub "db" "coll") []
      "0123456789abcdef01234567" (by decide)).2.1⟩

/-- C9: `get` constructs the `bsoncxx::oid` before any database access;
for every id that is not a well-formed ObjectId string the construction
throws, so `get` fails with no database operation issued, nothing printed,
and the database state untouched. -/
theorem get_invalid_id_throws_before_db :
    ∀ {α : Type} (dflt : α) (objColl : α → Collection)
      (w : World) (id : String),
      validOid id = false →
        (get dflt objColl w id).ops = []
        ∧ (get dflt objColl w id).output = []
        ∧ (get dflt objColl w id).world = w
        ∧ (get dflt objColl w id).result
            = Except.error "bsoncxx::exception: invalid ObjectId string" := by
  intro α dflt objColl w id hinvalid
  simp [get, hinvalid]

/-- C9 (witness): the theorem applied at the concrete malformed id `""`. -/
theorem get_invalid_id_throws_before_db_witness :
    validOid "" = false
    ∧ (get 0 (fun _ => clientSub "db" "coll") [] "").ops = [] :=
  ⟨by decide,
   (get_invalid_id_throws_before_db 0 (fun _ => clientSub "db" "coll")
      [] "" (by decide)).1⟩

end Sagacious
